import Mathlib

/-!
Verification development for the Dhan stock-list scraper
(`dhan_scraper.py` / `app.py`).

The scraper's core, `DhanStockScraper.scrape_stock_data`, is a stateful
scroll-and-harvest loop driven by an external browser driver.  We embed it
shallowly: every driver interaction of one loop iteration (the three
incremental scrolls, the wait for table rows, the page-height query, the
forced bottom-scroll probe with its re-measurement, and the periodic
screenshot) is supplied by an oracle `IterFeed`, one per iteration, and the
loop itself is a fuel-indexed recursion over the loop state
`(all_stocks_data, last_height, scroll_attempts, no_new_data_count,
previous_stock_count)`.

Python strings are modelled as explicit character lists (`PyStr`), so that
`str.strip`, `str.replace` and `str.split` become list operations; Python
`float` values arising from price parsing are modelled as rationals (the
claims never depend on binary rounding), and the dynamically-typed `price`
field - which the source leaves as a string when the cell text is empty -
is modelled by the sum type `PriceVal`.
-/

namespace DhanScraper

/-- Model of a Python `str`: an explicit character sequence. -/
abbrev PyStr := List Char

/-- Coerce a Lean string literal into the `PyStr` model. -/
def pystr (s : String) : PyStr := s.data

/-- Model of Python `str.strip()`: drop whitespace from both ends.
Whitespace is modelled by `Char.isWhitespace` (the ASCII whitespace set;
no claim exercises exotic Unicode whitespace). -/
def pyStrip (s : PyStr) : PyStr :=
  ((s.dropWhile Char.isWhitespace).reverse.dropWhile Char.isWhitespace).reverse

/-- Model of `str.replace(',', '')` as used on the price cell at line 158:
every comma is removed. -/
def removeCommas (s : PyStr) : PyStr := s.filter (fun c => c ≠ ',')

/-- Value of a digit string, most significant first. -/
def digitsToNat (ds : List Char) : Nat := ds.foldl (fun a c => 10 * a + (c.toNat - 48)) 0

/-- A successfully parsed price, kept in exact decimal form: an integer
mantissa `m` and a count `k` of fractional digits, denoting `m / 10 ^ k`.
(Python stores a binary float; the exact decimal is faithful for every
value the claims exercise and keeps the model kernel-computable.) -/
structure Dec where
  m : ℤ
  k : ℕ
deriving DecidableEq, Repr

/-- The rational number a `Dec` denotes. -/
def Dec.toRat (d : Dec) : ℚ := (d.m : ℚ) / (10 : ℚ) ^ d.k

/-- Model of Python `float(s)` on plain decimal notation: an optional sign
followed by digits with at most one decimal point and at least one digit
(`float("")`, `float(".")`, `float("-")`, `float("N/A")` all raise
`ValueError`, i.e. return `none` here).  Exponent notation and the
`inf`/`nan` spellings are outside the fragment the scraper's inputs and the
claims exercise. -/
def pyFloat (s : PyStr) : Option Dec :=
  let signRest : ℤ × PyStr :=
    match s with
    | '-' :: r => (-1, r)
    | '+' :: r => (1, r)
    | r => (1, r)
  let sign := signRest.1
  let rest := signRest.2
  let intPart := rest.takeWhile Char.isDigit
  match rest.dropWhile Char.isDigit with
  | [] => if intPart = [] then none else some ⟨sign * (digitsToNat intPart : ℤ), 0⟩
  | '.' :: frac =>
      if frac.all Char.isDigit ∧ (intPart ≠ [] ∨ frac ≠ []) then
        some ⟨sign * ((digitsToNat intPart : ℤ) * (10 : ℤ) ^ frac.length +
          (digitsToNat frac : ℤ)), frac.length⟩
      else none
  | _ => none

/-- The scraper's `price` variable is dynamically typed: it holds a float
after a successful (or defaulted) parse, but keeps the *string* value when
the cleaned cell text is empty, because line 164's `if price:` guard skips
the conversion entirely. -/
inductive PriceVal where
  | num (d : Dec)
  | str (s : PyStr)
deriving DecidableEq, Repr

/-- Lines 158 and 163-169: clean the price cell text
(`strip` then drop commas); if the result is non-empty, parse it as a
float, substituting `0.0` and logging a warning on `ValueError`; if it is
empty, leave the (empty) string in place.  The boolean records whether the
warning was logged. -/
def parsePrice (cellText : PyStr) : PriceVal × Bool :=
  let price := removeCommas (pyStrip cellText)
  if price ≠ [] then
    match pyFloat price with
    | some q => (.num q, false)
    | none => (.num ⟨0, 0⟩, true)
  else (.str price, false)

/-- Line 173: `name.split('\n')[1] if '\n' in name else name` — the text
between the first and second line break when the display name is
multi-line, otherwise the display name itself. -/
def symbolOf (name : PyStr) : PyStr :=
  if '\n' ∈ name then ((name.dropWhile (· ≠ '\n')).drop 1).takeWhile (· ≠ '\n')
  else name

/-- One harvested row, mirroring the `stock_data` dict of lines 171-179. -/
structure StockRecord where
  name : PyStr
  symbol : PyStr
  price : PriceVal
  changePercent : PyStr
  volume : PyStr
  value : PyStr
  timestamp : PyStr
deriving DecidableEq, Repr

/-- One rendered table row as the driver presents it: its cell texts, plus
whether touching the row (the `scrollIntoView` script or a cell-text read)
raises — such a per-row exception is swallowed by the `except` at line 184
and the row is skipped. -/
structure Row where
  cols : List PyStr
  procErr : Bool
deriving DecidableEq, Repr

/-- Lines 171-179: the record built from the first five cells of a row.
`now` models `datetime.now().strftime(...)` for this run. -/
def buildRecord (now c0 c1 c2 c3 c4 : PyStr) : StockRecord :=
  let name := pyStrip c0
  { name := name
    symbol := symbolOf name
    price := (parsePrice c1).1
    changePercent := pyStrip c2
    volume := pyStrip c3
    value := pyStrip c4
    timestamp := now }

/-- Lines 141-186, one row of the extraction loop: skip the row on a
processing exception, on fewer than five cells, on an empty stripped name,
or on a name already present in the accumulator; otherwise append the
freshly built record. -/
def extractRow (now : PyStr) (acc : List StockRecord) (r : Row) : List StockRecord :=
  if r.procErr then acc
  else
    match r.cols with
    | c0 :: c1 :: c2 :: c3 :: c4 :: _ =>
        let name := pyStrip c0
        if name = [] ∨ name ∈ acc.map StockRecord.name then acc
        else acc ++ [buildRecord now c0 c1 c2 c3 c4]
    | _ => acc

/-- The full row-processing pass of one iteration (the `for row in
table_rows` loop). -/
def processRows (now : PyStr) (acc : List StockRecord) (rows : List Row) : List StockRecord :=
  rows.foldl (extractRow now) acc

/-- The structural filter of `extractRow` without the dedup check: the
stripped name of a row that survives the per-row exception guard, the
five-cell check and the empty-name check. -/
def rowName (r : Row) : Option PyStr :=
  if r.procErr then none
  else
    match r.cols with
    | c0 :: _ :: _ :: _ :: _ :: _ =>
        let n := pyStrip c0
        if n = [] then none else some n
    | _ => none

/-- The names of the structurally accepted rows, in presentation order. -/
def acceptedNames (rows : List Row) : List PyStr := rows.filterMap rowName

/-- Append a name unless it is already present. -/
def addFirst (ns : List PyStr) (n : PyStr) : List PyStr :=
  if n ∈ ns then ns else ns ++ [n]

/-- Keep the first occurrence of every name, in first-occurrence order. -/
def firstOccurrences (l : List PyStr) : List PyStr := l.foldl addFirst []

/-- The mutable loop state of `scrape_stock_data`, lines 105-110:
`all_stocks_data`, `last_height`, `scroll_attempts`, `no_new_data_count`
and `previous_stock_count`. -/
structure LoopState where
  records : List StockRecord
  lastHeight : Nat
  scrollAttempts : Nat
  noNewDataCount : Nat
  previousStockCount : Nat
deriving DecidableEq, Repr

/-- The state at loop entry (lines 105-110). -/
def initState : LoopState := ⟨[], 0, 0, 0, 0⟩

/-- Everything the external driver supplies to (or throws at) one loop
iteration, in program order:
* `scrollErr` — one of the three `scrollBy` scripts of lines 119-122
  raises (uncaught, so it reaches the handler at line 238);
* `waitResult` — the rows returned by `wait.until` at lines 127-129, or
  `none` when the wait raises (caught at line 130, leading to `break`);
* `height` / `heightErr` — the `scrollHeight` query of line 201 and
  whether it raises (uncaught);
* `probeHeight` / `probeErr` — the re-measured height of line 212 after
  the forced bottom scroll of line 208, and whether that probe raises
  (uncaught);
* `shotErr` — `save_screenshot` at line 221 raises (uncaught). -/
structure IterFeed where
  scrollErr : Bool
  waitResult : Option (List Row)
  height : Nat
  heightErr : Bool
  probeHeight : Nat
  probeErr : Bool
  shotErr : Bool

/-- How control leaves the `while` loop:
* `waitBreak` — `break` at line 132 (wait raised) or line 136 (no rows);
* `noNewBreak` — `break` at line 194 (`no_new_data_count >= 5`);
* `heightBreak` — `break` at line 215 (probe height unchanged);
* `capExit` — the `while scroll_attempts < max_scroll_attempts` guard
  of line 115 became false;
* `outerErr` — an exception escaped to the handler at lines 238-241. -/
inductive LoopExit where
  | waitBreak
  | noNewBreak
  | heightBreak
  | capExit
  | outerErr
deriving DecidableEq, Repr

/-- Lines 219-224: the periodic debug screenshot (taken when the
accumulated count is a multiple of 50; a failure there is uncaught) and
the `last_height` update that closes the iteration. -/
def shotPhase (st : LoopState) (newHeight : Nat) (f : IterFeed) :
    LoopState × Option LoopExit :=
  if st.records.length % 50 = 0 ∧ f.shotErr = true then (st, some .outerErr)
  else ({ st with lastHeight := newHeight }, none)

/-- Lines 200-224: measure the page height; on a stable reading increment
`scroll_attempts` and, once it reaches 3, run the forced bottom-scroll
probe — terminating if the re-measured height is unchanged; on a changed
reading reset `scroll_attempts` to 0.  Note that after a probe whose
re-measured height differs, `scroll_attempts` keeps its incremented
value — the source has no reset on that path. -/
def heightPhase (st : LoopState) (f : IterFeed) : LoopState × Option LoopExit :=
  if f.heightErr then (st, some .outerErr)
  else
    let newHeight := f.height
    if newHeight = st.lastHeight then
      let sa := st.scrollAttempts + 1
      if 3 ≤ sa then
        if f.probeErr then ({ st with scrollAttempts := sa }, some .outerErr)
        else if f.probeHeight = newHeight then
          ({ st with scrollAttempts := sa }, some .heightBreak)
        else shotPhase { st with scrollAttempts := sa } newHeight f
      else shotPhase { st with scrollAttempts := sa } newHeight f
    else shotPhase { st with scrollAttempts := 0 } newHeight f

/-- One full iteration of the `while` loop, lines 116-229: scroll, wait
for rows, extract and deduplicate, update the no-new-data counter
(breaking at 5), then run the height logic. -/
def runIteration (now : PyStr) (st : LoopState) (f : IterFeed) :
    LoopState × Option LoopExit :=
  if f.scrollErr then (st, some .outerErr)
  else
    match f.waitResult with
    | none => (st, some .waitBreak)
    | some rows =>
      if rows = [] then (st, some .waitBreak)
      else
        let records' := processRows now st.records rows
        let current := records'.length
        if current = st.previousStockCount then
          let nnd := st.noNewDataCount + 1
          if 5 ≤ nnd then
            ({ st with records := records', noNewDataCount := nnd }, some .noNewBreak)
          else
            heightPhase
              { st with records := records', noNewDataCount := nnd,
                        previousStockCount := current } f
        else
          heightPhase
            { st with records := records', noNewDataCount := 0,
                      previousStockCount := current } f

/-- Fuel-indexed unrolling of the `while scroll_attempts <
max_scroll_attempts` loop (line 115, with `max_scroll_attempts = 50` from
line 108).  `Sum.inl` means the loop is still running after `fuel`
iterations; `Sum.inr (e, st, i)` means it exited with `e` in state `st`
during the iteration of index `i` (0-based). -/
def loopGo (now : PyStr) (feed : Nat → IterFeed) :
    LoopState → Nat → Nat → LoopState ⊕ (LoopExit × LoopState × Nat)
  | st, _, 0 => .inl st
  | st, i, fuel + 1 =>
    if st.scrollAttempts < 50 then
      match runIteration now st (feed i) with
      | (st', none) => loopGo now feed st' (i + 1) fuel
      | (st', some e) => .inr (e, st', i)
    else .inr (.capExit, st, i)

/-- `scrape_stock_data` as a whole: `loadErr` models `driver.get`
raising at line 103 (caught by the handler at line 238, which returns
`None`); any exit through `outerErr` likewise returns `None`; the other
exits fall through to lines 231-236, returning the accumulated records if
any and `None` otherwise.  The outer `none` means the fuel ran out while
the loop was still going. -/
def scrape (loadErr : Bool) (now : PyStr) (feed : Nat → IterFeed) (fuel : Nat) :
    Option (Option (List StockRecord)) :=
  if loadErr then some none
  else
    match loopGo now feed initState 0 fuel with
    | .inl _ => none
    | .inr (.outerErr, _, _) => some none
    | .inr (_, st, _) => some (if st.records = [] then none else some st.records)

/-- One cell of a CSV row as `csv.DictWriter` receives it: either string
text or the (possibly still numeric) price value. -/
inductive Field where
  | s (v : PyStr)
  | p (v : PriceVal)
deriving DecidableEq, Repr

/-- Line 247: the fixed `headers` list of `save_to_csv`. -/
def csvHeaders : List Field :=
  [.s (pystr "timestamp"), .s (pystr "name"), .s (pystr "symbol"),
   .s (pystr "price"), .s (pystr "change_percent"), .s (pystr "volume"),
   .s (pystr "value")]

/-- How `csv.DictWriter` lays out one record: the dict's values in
`fieldnames` order (line 260 together with line 247). -/
def renderRecord (r : StockRecord) : List Field :=
  [.s r.timestamp, .s r.name, .s r.symbol, .p r.price,
   .s r.changePercent, .s r.volume, .s r.value]

/-- Lines 243-268, `save_to_csv`, on its happy path.  The sink is
`none` when opening `self.csv_file` for reading raises
`FileNotFoundError` (lines 250-255), and `some rows` — the file's
current rows — otherwise.  The write mode is `'a'` when the file exists
and `'w'` otherwise (line 258), and the header row is written only in the
latter case (lines 262-263); the records follow via `writerows`
(line 265). -/
def save_to_csv (stocksData : List StockRecord) (sink : Option (List (List Field))) :
    Option (List (List Field)) :=
  let fileExists := sink.isSome
  let base := if fileExists then sink.getD [] else []
  let withHeader := if fileExists then base else base ++ [csvHeaders]
  some (withHeader ++ stocksData.map renderRecord)

/-! ### Concrete feeds used to exercise the loop

Each feed is one synthetic behaviour of the external driver, chosen to
drive the loop down a particular path. -/

/-- A well-formed five-cell row whose display name is `"A"`. -/
def rowA : Row := ⟨[pystr "A", pystr "1", pystr "c", pystr "v", pystr "w"], false⟩

/-- The record the loop builds from `rowA` (with empty timestamp). -/
def recA : StockRecord :=
  ⟨pystr "A", pystr "A", .num ⟨1, 0⟩, pystr "c", pystr "v", pystr "w", []⟩

/-- A driver behaviour whose first iteration yields `rowA` and whose
second wait raises (times out); later iterations would still offer a
fresh row `"D"`, which the loop never reaches. -/
def feedWaitTimeout : Nat → IterFeed
  | 0 => ⟨false, some [rowA], 1, false, 0, false, false⟩
  | 1 => ⟨false, none, 2, false, 0, false, false⟩
  | _ => ⟨false, some [⟨[pystr "D", pystr "1", pystr "c", pystr "v", pystr "w"], false⟩],
          3, false, 0, false, false⟩

/-- A well-formed five-cell row whose display name is `"B"`. -/
def rowB : Row := ⟨[pystr "B", pystr "1", pystr "c", pystr "v", pystr "w"], false⟩

/-- The record the loop builds from `rowB` (with empty timestamp). -/
def recB : StockRecord :=
  ⟨pystr "B", pystr "B", .num ⟨1, 0⟩, pystr "c", pystr "v", pystr "w", []⟩

/-- A driver behaviour whose first iteration yields `rowB` and whose
second `Waiting` step fails with a driver error. -/
def feedWaitError : Nat → IterFeed
  | 0 => ⟨false, some [rowB], 1, false, 0, false, false⟩
  | _ => ⟨false, none, 2, false, 0, false, false⟩

/-- A malformed row: a single cell, so the `len(columns) >= 5` check of
line 150 rejects it and no record is ever admitted. -/
def row1col : Row := ⟨[pystr "x"], false⟩

/-- A driver behaviour with zero new records every iteration and a page
height that always reads 0 — equal to the initial `last_height` — with
the probe also reading 0. -/
def feedStuck : Nat → IterFeed :=
  fun _ => ⟨false, some [row1col], 0, false, 0, false, false⟩

/-- Fifty pairwise distinct two-character display names. -/
def name50 (i : Nat) : PyStr := ['a', Char.ofNat (48 + i)]

/-- A well-formed five-cell row carrying the `i`-th distinct name. -/
def row50 (i : Nat) : Row :=
  ⟨[name50 i, pystr "1", pystr "c", pystr "v", pystr "w"], false⟩

/-- Fifty fresh rows served in one iteration, driving the accumulated
count to exactly 50 — a multiple of 50, so the screenshot of line 221 is
requested. -/
def rows50 : List Row := (List.range 50).map row50

/-- The record built from `row50 i` (with empty timestamp). -/
def rec50 (i : Nat) : StockRecord :=
  ⟨name50 i, name50 i, .num ⟨1, 0⟩, pystr "c", pystr "v", pystr "w", []⟩

/-- Driver behaviour: 50 fresh rows in iteration 0 and a failing
screenshot capture there; afterwards an empty row list. -/
def feedShotFail : Nat → IterFeed
  | 0 => ⟨false, some rows50, 7, false, 0, false, true⟩
  | _ => ⟨false, some [], 8, false, 0, false, false⟩

/-- The same driver behaviour with the screenshot capture succeeding. -/
def feedShotOk : Nat → IterFeed
  | 0 => ⟨false, some rows50, 7, false, 0, false, false⟩
  | _ => ⟨false, some [], 8, false, 0, false, false⟩

/-- A feed for one `heightPhase` call: the measured height 5 is stable,
the probe re-measures 9 (the probe moved the page), nothing raises. -/
def probeMovedFeed : IterFeed := ⟨false, some [], 5, false, 9, false, false⟩

/-! ### A feed that never stabilizes

Iteration `i` serves exactly one fresh row (display name `'a'` repeated
`i + 1` times, so all names are distinct) and a page height `i + 1` that
differs from every previous reading: both the record count and the height
change every iteration. -/

/-- The `i`-th fresh display name: `'a'` repeated `i + 1` times. -/
def nameFresh (i : Nat) : PyStr := List.replicate (i + 1) 'a'

/-- A well-formed five-cell row carrying `nameFresh i`. -/
def rowFresh (i : Nat) : Row :=
  ⟨[nameFresh i, pystr "1", pystr "c", pystr "v", pystr "w"], false⟩

/-- The never-stabilizing driver behaviour. -/
def feedFresh (i : Nat) : IterFeed :=
  ⟨false, some [rowFresh i], i + 1, false, 0, false, false⟩

/-- The record the loop builds from `rowFresh i` (empty timestamp). -/
def recFresh (i : Nat) : StockRecord :=
  ⟨nameFresh i, nameFresh i, .num ⟨1, 0⟩, pystr "c", pystr "v", pystr "w", []⟩

/-- The loop state after `n` iterations on `feedFresh`: `n` accumulated
records, `last_height = n`, and both streak counters freshly reset. -/
def stateFresh (n : Nat) : LoopState :=
  ⟨(List.range n).map recFresh, n, 0, 0, n⟩

theorem dropWhile_ws_replicate (n : Nat) :
    List.dropWhile Char.isWhitespace (List.replicate (n + 1) 'a') =
      List.replicate (n + 1) 'a' := by
  rw [List.replicate_succ, List.dropWhile_cons]
  simp

theorem pyStrip_nameFresh (i : Nat) : pyStrip (nameFresh i) = nameFresh i := by
  unfold pyStrip nameFresh
  rw [dropWhile_ws_replicate, List.reverse_replicate, dropWhile_ws_replicate,
    List.reverse_replicate]

theorem nameFresh_injective : Function.Injective nameFresh := by
  intro i j h
  have := congrArg List.length h
  simpa [nameFresh] using this

theorem symbolOf_nameFresh (i : Nat) : symbolOf (nameFresh i) = nameFresh i := by
  unfold symbolOf
  rw [if_neg]
  intro h
  have h2 : '\n' = 'a' := List.eq_of_mem_replicate h
  exact absurd h2 (by decide)

theorem nameFresh_ne_nil (i : Nat) : nameFresh i ≠ [] := by
  unfold nameFresh
  rw [List.replicate_succ]
  exact List.cons_ne_nil _ _

theorem nameFresh_not_mem (k : Nat) :
    nameFresh k ∉ ((List.range k).map recFresh).map StockRecord.name := by
  intro h
  rw [List.map_map, List.mem_map] at h
  obtain ⟨i, hi, hEq⟩ := h
  rw [List.mem_range] at hi
  have : i = k := nameFresh_injective hEq
  omega

theorem buildRecord_rowFresh (i : Nat) :
    buildRecord [] (nameFresh i) (pystr "1") (pystr "c") (pystr "v") (pystr "w") =
      recFresh i := by
  unfold buildRecord recFresh
  rw [pyStrip_nameFresh]
  dsimp only
  rw [symbolOf_nameFresh, StockRecord.mk.injEq]
  exact ⟨rfl, rfl, by decide, by decide, by decide, by decide, rfl⟩

theorem extractRow_rowFresh (k : Nat) :
    extractRow [] ((List.range k).map recFresh) (rowFresh k) =
      (List.range (k + 1)).map recFresh := by
  unfold extractRow rowFresh
  simp only [Bool.false_eq_true, if_false]
  rw [pyStrip_nameFresh]
  rw [if_neg (by push_neg; exact ⟨nameFresh_ne_nil k, nameFresh_not_mem k⟩)]
  rw [buildRecord_rowFresh k, List.range_succ, List.map_append]
  rfl

theorem runIteration_fresh (k : Nat) :
    runIteration [] (stateFresh k) (feedFresh k) = (stateFresh (k + 1), none) := by
  unfold runIteration feedFresh stateFresh
  simp only [Bool.false_eq_true, if_false]
  rw [show processRows [] ((List.range k).map recFresh) [rowFresh k] =
        (List.range (k + 1)).map recFresh from extractRow_rowFresh k]
  have hlen : ((List.range (k + 1)).map recFresh).length = k + 1 := by simp
  rw [if_neg (by simp [hlen]), hlen]
  unfold heightPhase
  simp only [Bool.false_eq_true, if_false]
  rw [if_neg (by omega)]
  unfold shotPhase
  simp

theorem loopGo_fresh (fuel : Nat) :
    ∀ k : Nat, loopGo [] feedFresh (stateFresh k) k fuel = .inl (stateFresh (k + fuel)) := by
  induction fuel with
  | zero => intro k; rfl
  | succ n ih =>
      intro k
      rw [loopGo]
      rw [if_pos (by unfold stateFresh; simp)]
      rw [runIteration_fresh k]
      show loopGo [] feedFresh (stateFresh (k + 1)) (k + 1) n =
        Sum.inl (stateFresh (k + (n + 1)))
      rw [ih (k + 1)]
      have harith : k + 1 + n = k + (n + 1) := by omega
      rw [harith]

/-! ### Deduplication by display name -/

theorem extractRow_rowName_none (now : PyStr) (acc : List StockRecord) (r : Row)
    (h : rowName r = none) : extractRow now acc r = acc := by
  obtain ⟨cols, perr⟩ := r
  unfold rowName at h
  unfold extractRow
  cases perr with
  | true => simp
  | false =>
    simp only [Bool.false_eq_true, if_false] at h ⊢
    rcases cols with _ | ⟨c0, _ | ⟨c1, _ | ⟨c2, _ | ⟨c3, _ | ⟨c4, rest⟩⟩⟩⟩⟩
    · rfl
    · rfl
    · rfl
    · rfl
    · rfl
    · dsimp only at h ⊢
      split at h
      · rename_i hEmpty
        rw [if_pos (Or.inl hEmpty)]
      · exact absurd h (by simp)

theorem extractRow_rowName_some (now : PyStr) (acc : List StockRecord) (r : Row)
    (n : PyStr) (h : rowName r = some n) :
    (n ∈ acc.map StockRecord.name → extractRow now acc r = acc) ∧
    (n ∉ acc.map StockRecord.name →
      ∃ rec : StockRecord, rec.name = n ∧ extractRow now acc r = acc ++ [rec]) := by
  obtain ⟨cols, perr⟩ := r
  unfold rowName at h
  unfold extractRow
  cases perr with
  | true => simp at h
  | false =>
    simp only [Bool.false_eq_true, if_false] at h ⊢
    rcases cols with _ | ⟨c0, _ | ⟨c1, _ | ⟨c2, _ | ⟨c3, _ | ⟨c4, rest⟩⟩⟩⟩⟩
    · simp at h
    · simp at h
    · simp at h
    · simp at h
    · simp at h
    · dsimp only at h ⊢
      split at h
      · exact absurd h (by simp)
      · rename_i hne
        rw [Option.some_inj] at h
        subst h
        constructor
        · intro hmem
          rw [if_pos (Or.inr hmem)]
        · intro hmem
          rw [if_neg (by push_neg; exact ⟨hne, hmem⟩)]
          exact ⟨buildRecord now c0 c1 c2 c3 c4, rfl, rfl⟩

theorem addFirst_of_mem {ns : List PyStr} {n : PyStr} (h : n ∈ ns) :
    addFirst ns n = ns := by
  unfold addFirst
  rw [if_pos h]

theorem addFirst_of_not_mem {ns : List PyStr} {n : PyStr} (h : n ∉ ns) :
    addFirst ns n = ns ++ [n] := by
  unfold addFirst
  rw [if_neg h]

theorem processRows_names (now : PyStr) :
    ∀ (rows : List Row) (acc : List StockRecord),
      (processRows now acc rows).map StockRecord.name =
        (acceptedNames rows).foldl addFirst (acc.map StockRecord.name) := by
  intro rows
  induction rows with
  | nil => intro acc; rfl
  | cons r rs ih =>
    intro acc
    rw [show processRows now acc (r :: rs) = processRows now (extractRow now acc r) rs
      from rfl]
    cases h : rowName r with
    | none =>
      rw [extractRow_rowName_none now acc r h, ih acc]
      unfold acceptedNames
      rw [List.filterMap_cons_none h]
    | some n =>
      have hc := extractRow_rowName_some now acc r n h
      unfold acceptedNames
      rw [List.filterMap_cons_some h, List.foldl_cons]
      by_cases hm : n ∈ acc.map StockRecord.name
      · rw [hc.1 hm, ih acc, addFirst_of_mem hm]
        rfl
      · obtain ⟨rec, hname, heq⟩ := hc.2 hm
        rw [heq, ih (acc ++ [rec]), addFirst_of_not_mem hm]
        congr 1
        simp [hname]

theorem mem_addFirst (x n : PyStr) (ns : List PyStr) :
    x ∈ addFirst ns n ↔ x ∈ ns ∨ x = n := by
  unfold addFirst
  split
  · rename_i hmem
    constructor
    · exact Or.inl
    · rintro (h | rfl)
      · exact h
      · exact hmem
  · simp

theorem mem_foldl_addFirst (x : PyStr) :
    ∀ (l ns : List PyStr), x ∈ l.foldl addFirst ns ↔ x ∈ ns ∨ x ∈ l := by
  intro l
  induction l with
  | nil => simp
  | cons a l ih =>
    intro ns
    rw [List.foldl_cons, ih, mem_addFirst]
    simp only [List.mem_cons]
    tauto

theorem nodup_addFirst (ns : List PyStr) (n : PyStr) (h : ns.Nodup) :
    (addFirst ns n).Nodup := by
  unfold addFirst
  split
  · exact h
  · rename_i hmem
    simp [List.nodup_append, h, hmem]

theorem nodup_foldl_addFirst :
    ∀ (l ns : List PyStr), ns.Nodup → (l.foldl addFirst ns).Nodup := by
  intro l
  induction l with
  | nil => exact fun _ h => h
  | cons a l ih =>
    intro ns h
    rw [List.foldl_cons]
    exact ih _ (nodup_addFirst ns a h)

theorem firstOccurrences_nodup (l : List PyStr) : (firstOccurrences l).Nodup :=
  nodup_foldl_addFirst l [] List.nodup_nil

theorem firstOccurrences_toFinset (l : List PyStr) :
    (firstOccurrences l).toFinset = l.toFinset := by
  ext x
  simp [firstOccurrences, List.mem_toFinset, mem_foldl_addFirst]

theorem firstOccurrences_length (l : List PyStr) :
    (firstOccurrences l).length = l.toFinset.card := by
  rw [← firstOccurrences_toFinset, List.toFinset_card_of_nodup (firstOccurrences_nodup l)]

theorem processRows_absorbed (now : PyStr) :
    ∀ (rows : List Row) (acc : List StockRecord),
      (∀ n ∈ acceptedNames rows, n ∈ acc.map StockRecord.name) →
      processRows now acc rows = acc := by
  intro rows
  induction rows with
  | nil => intro acc _; rfl
  | cons r rs ih =>
    intro acc hsub
    rw [show processRows now acc (r :: rs) = processRows now (extractRow now acc r) rs
      from rfl]
    cases h : rowName r with
    | none =>
      rw [extractRow_rowName_none now acc r h]
      apply ih
      intro n hn
      apply hsub
      unfold acceptedNames
      rw [List.filterMap_cons_none h]
      exact hn
    | some n =>
      have hmem : n ∈ acc.map StockRecord.name := by
        apply hsub
        unfold acceptedNames
        rw [List.filterMap_cons_some h]
        exact List.mem_cons_self _ _
      rw [(extractRow_rowName_some now acc r n h).1 hmem]
      apply ih
      intro m hm
      apply hsub
      unfold acceptedNames
      rw [List.filterMap_cons_some h]
      exact List.mem_cons_of_mem _ hm

/-! ### Per-iteration control-flow lemmas -/

theorem loopGo_wait_none (now : PyStr) (feed : Nat → IterFeed) (st : LoopState)
    (i fuel : Nat) (hcap : st.scrollAttempts < 50)
    (h1 : (feed i).scrollErr = false) (h2 : (feed i).waitResult = none) :
    loopGo now feed st i (fuel + 1) = .inr (.waitBreak, st, i) := by
  rw [loopGo, if_pos hcap]
  unfold runIteration
  rw [h2]
  simp [h1]

theorem loopGo_scroll_err (now : PyStr) (feed : Nat → IterFeed) (st : LoopState)
    (i fuel : Nat) (hcap : st.scrollAttempts < 50)
    (h : (feed i).scrollErr = true) :
    loopGo now feed st i (fuel + 1) = .inr (.outerErr, st, i) := by
  rw [loopGo, if_pos hcap]
  unfold runIteration
  rw [if_pos h]

theorem shotPhase_escalates (st : LoopState) (nh : Nat) (f g : IterFeed)
    (hg : g.shotErr = true) (st' : LoopState)
    (h1 : shotPhase st nh f = (st', none)) (h2 : st'.records.length % 50 = 0) :
    shotPhase st nh g = (st, some .outerErr) := by
  unfold shotPhase at h1 ⊢
  split at h1
  · exact absurd (congrArg Prod.snd h1) (by simp)
  · have hst : st' = { st with lastHeight := nh } := (Prod.mk.injEq _ _ _ _ ▸ h1).1.symm
    rw [if_pos ⟨by simpa [hst] using h2, hg⟩]

theorem heightPhase_escalates (st st' : LoopState) (f : IterFeed)
    (h1 : heightPhase st { f with shotErr := false } = (st', none))
    (h2 : st'.records.length % 50 = 0) :
    (heightPhase st { f with shotErr := true }).2 = some LoopExit.outerErr := by
  unfold heightPhase at h1 ⊢
  dsimp only at h1 ⊢
  by_cases he : f.heightErr = true
  · rw [if_pos he] at h1
    exact absurd (congrArg Prod.snd h1) (by simp)
  · rw [if_neg he] at h1 ⊢
    by_cases hh : f.height = st.lastHeight
    · rw [if_pos hh] at h1 ⊢
      by_cases hsa : 3 ≤ st.scrollAttempts + 1
      · rw [if_pos hsa] at h1 ⊢
        by_cases hpe : f.probeErr = true
        · rw [if_pos hpe] at h1
          exact absurd (congrArg Prod.snd h1) (by simp)
        · rw [if_neg hpe] at h1 ⊢
          by_cases hph : f.probeHeight = f.height
          · rw [if_pos hph] at h1
            exact absurd (congrArg Prod.snd h1) (by simp)
          · rw [if_neg hph] at h1 ⊢
            rw [shotPhase_escalates _ _ _ _ rfl st' h1 h2]
      · rw [if_neg hsa] at h1 ⊢
        rw [shotPhase_escalates _ _ _ _ rfl st' h1 h2]
    · rw [if_neg hh] at h1 ⊢
      rw [shotPhase_escalates _ _ _ _ rfl st' h1 h2]

/-- Claim C9 (amended): the periodic screenshot of line 221 is *not*
best-effort.  If an iteration completes normally when the capture succeeds
and its accumulated count is a multiple of 50 (so the capture is
requested), then the same iteration with a failing capture ends in
`outerErr`: the exception propagates to the handler at line 238 and the
run is aborted. -/
theorem screenshot_failure_escalates (now : PyStr) (st st' : LoopState) (f : IterFeed)
    (h1 : runIteration now st { f with shotErr := false } = (st', none))
    (h2 : st'.records.length % 50 = 0) :
    (runIteration now st { f with shotErr := true }).2 = some LoopExit.outerErr := by
  unfold runIteration at h1 ⊢
  dsimp only at h1 ⊢
  by_cases hs : f.scrollErr = true
  · rw [if_pos hs]
  · rw [if_neg hs] at h1 ⊢
    cases hw : f.waitResult with
    | none =>
      rw [hw] at h1
      exact absurd (congrArg Prod.snd h1) (by simp)
    | some rows =>
      rw [hw] at h1
      dsimp only at h1 ⊢
      by_cases hr : rows = []
      · rw [if_pos hr] at h1
        exact absurd (congrArg Prod.snd h1) (by simp)
      · rw [if_neg hr] at h1 ⊢
        by_cases hcur : (processRows now st.records rows).length = st.previousStockCount
        · rw [if_pos hcur] at h1 ⊢
          by_cases hn : 5 ≤ st.noNewDataCount + 1
          · rw [if_pos hn] at h1
            exact absurd (congrArg Prod.snd h1) (by simp)
          · rw [if_neg hn] at h1 ⊢
            exact heightPhase_escalates _ st' { f with waitResult := some rows } h1 h2
        · rw [if_neg hcur] at h1 ⊢
          exact heightPhase_escalates _ st' { f with waitResult := some rows } h1 h2

/-! ### Claims -/

/-- Claim C1 (counterexample): the claim says the harvest loop stops after
at most 50 iterations — exactly at iteration 50 on a feed whose height and
record count change every iteration.  In the source, `scroll_attempts` is
reset to 0 whenever the measured height changes (line 217), so on
`feedFresh` the `while scroll_attempts < 50` guard never budges: after 55
iterations the loop is still running (`Sum.inl`-like fuel exhaustion,
i.e. `scrape` yields no result at fuel 55 > 50) with 55 accumulated
records. -/
theorem unstable_feed_runs_past_iteration_fifty :
    scrape false [] feedFresh 55 = none ∧ (stateFresh 55).records.length = 55 := by
  constructor
  · have h := loopGo_fresh 55 0
    rw [Nat.zero_add] at h
    unfold scrape
    rw [if_neg (by simp), show initState = stateFresh 0 from rfl, h]
  · simp [stateFresh]

/-- Claim C1 (amended): `max_scroll_attempts = 50` caps only *consecutive
stable-height* scroll attempts, not total iterations: on a feed whose
height and record count both change every iteration both counters are
reset each time, and the loop never terminates — for every fuel bound `n`
the loop is still running in state `stateFresh n`, and the run as a whole
yields no outcome. -/
theorem unstable_feed_never_terminates (n : Nat) :
    scrape false [] feedFresh n = none ∧
    loopGo [] feedFresh initState 0 n = Sum.inl (stateFresh n) := by
  have h := loopGo_fresh n 0
  rw [Nat.zero_add] at h
  constructor
  · unfold scrape
    rw [if_neg (by simp), show initState = stateFresh 0 from rfl, h]
  · rw [show initState = stateFresh 0 from rfl, h]

/-- Claim C2 (counterexample): the claim says five consecutive zero-new-record
iterations end the loop on the fifth such iteration *regardless of the
observed heights*.  On `feedStuck` (zero new records every iteration,
height always 0 — equal to the initial `last_height` — and a probe that
also reads 0) the loop instead exits through the *height* branch during
the third iteration, with `no_new_data_count` only at 3. -/
theorem zero_new_streak_preempted_by_height_probe :
    loopGo [] feedStuck initState 0 10 = .inr (.heightBreak, ⟨[], 0, 3, 3, 0⟩, 2) ∧
    scrape false [] feedStuck 10 = some none := by
  exact ⟨by decide, by decide⟩

/-- Claim C2 (amended): when an iteration that the loop actually reaches
sees zero new records (the extraction pass leaves the accumulator
unchanged and its length equals `previous_stock_count`) and
`no_new_data_count` already stands at 4, the iteration breaks out through
the no-new-data branch of lines 190-194 *before any height logic runs* —
the height, probe and screenshot values of that iteration are
irrelevant.  This is the fifth consecutive zero-new iteration, provided
the height branch has not ended the loop earlier. -/
theorem fifth_zero_new_iteration_breaks (now : PyStr) (st : LoopState) (f : IterFeed)
    (rows : List Row)
    (h1 : f.scrollErr = false) (h2 : f.waitResult = some rows) (h3 : rows ≠ [])
    (h4 : processRows now st.records rows = st.records)
    (h5 : st.records.length = st.previousStockCount)
    (h6 : st.noNewDataCount = 4) :
    runIteration now st f = ({ st with noNewDataCount := 5 }, some .noNewBreak) := by
  unfold runIteration
  rw [h2]
  dsimp only
  rw [if_neg (by simp [h1]), if_neg h3, h4, if_pos h5, h6]
  rw [if_pos (by omega)]

/-- Witness for `fifth_zero_new_iteration_breaks` at a concrete state and
feed (with arbitrary nonzero heights and even a failing screenshot, which
must be irrelevant). -/
theorem fifth_zero_new_iteration_breaks_witness :
    runIteration [] ⟨[], 0, 0, 4, 0⟩ ⟨false, some [row1col], 9, false, 3, false, true⟩ =
      (⟨[], 0, 0, 5, 0⟩, some .noNewBreak) :=
  fifth_zero_new_iteration_breaks [] ⟨[], 0, 0, 4, 0⟩
    ⟨false, some [row1col], 9, false, 3, false, true⟩ [row1col]
    rfl rfl (by decide) (by decide) rfl rfl

/-- Claim C3 (counterexample): the claim says that after a forced probe whose
re-measured height differs from the previous height, the stable-height
streak is reset to 0 before the loop continues.  In the source
(lines 204-217) nothing resets `scroll_attempts` on that path: from a
state with streak 2 and a stable reading, the probe fires
(`probeMovedFeed` re-measures 9 ≠ 5), the iteration continues — and the
streak stands at 3, not 0. -/
theorem failed_probe_keeps_streak :
    heightPhase ⟨[], 5, 2, 0, 0⟩ probeMovedFeed = (⟨[], 5, 3, 0, 0⟩, none) ∧
    (heightPhase ⟨[], 5, 2, 0, 0⟩ probeMovedFeed).1.scrollAttempts = 3 := by
  exact ⟨by decide, by decide⟩

/-- Claim C3 (amended): whenever the incremented stable-height streak
reaches 3 (i.e. the previous streak was at least 2 and the height reading
is stable), the loop performs the forced bottom-scroll probe and
re-measures; if the re-measured height equals the measured height the
loop terminates through the height branch, and otherwise it continues
with the streak *retained* at its incremented value (it is reset to 0
only by a later changed height reading at line 217). -/
theorem stable_streak_probe (st : LoopState) (f : IterFeed)
    (h1 : f.heightErr = false) (h2 : f.height = st.lastHeight)
    (h3 : 2 ≤ st.scrollAttempts) (h4 : f.probeErr = false) (h5 : f.shotErr = false) :
    heightPhase st f =
      if f.probeHeight = f.height then
        ({ st with scrollAttempts := st.scrollAttempts + 1 }, some .heightBreak)
      else
        ({ st with scrollAttempts := st.scrollAttempts + 1, lastHeight := f.height },
          none) := by
  unfold heightPhase
  rw [if_neg (by simp [h1]), if_pos h2, if_pos (by omega)]
  rw [if_neg (by simp [h4])]
  by_cases hph : f.probeHeight = f.height
  · rw [if_pos hph, if_pos hph]
  · rw [if_neg hph, if_neg hph]
    unfold shotPhase
    rw [if_neg (by simp [h5])]

/-- Witness for `stable_streak_probe`: stable reading 4, unmoved probe,
termination through the height branch with the streak at 3. -/
theorem stable_streak_probe_witness :
    heightPhase ⟨[], 4, 2, 0, 0⟩ ⟨false, none, 4, false, 4, false, false⟩ =
      (⟨[], 4, 3, 0, 0⟩, some .heightBreak) := by
  have h := stable_streak_probe ⟨[], 4, 2, 0, 0⟩ ⟨false, none, 4, false, 4, false, false⟩
    rfl rfl (by decide) rfl rfl
  simpa using h

/-- Claim C4: across any sequence of rendered rows (also split across
iterations — the last two conjuncts), the accumulated dataset keeps at
most one record per distinct `displayName` (exact match on the stripped
first cell): its name sequence is exactly the first occurrence of each
structurally accepted name in first-occurrence order, the names are
pairwise distinct, the record count equals the number of distinct
accepted names, and replaying the very same rows changes nothing — later
duplicates are dropped wholesale, never merged into existing records. -/
theorem dedup_first_occurrence (now : PyStr) (rows rows1 rows2 : List Row) :
    (processRows now [] rows).map StockRecord.name =
      firstOccurrences (acceptedNames rows) ∧
    ((processRows now [] rows).map StockRecord.name).Nodup ∧
    (processRows now [] rows).length = (acceptedNames rows).toFinset.card ∧
    processRows now (processRows now [] rows) rows = processRows now [] rows ∧
    processRows now [] (rows1 ++ rows2) =
      processRows now (processRows now [] rows1) rows2 := by
  have h1 : (processRows now [] rows).map StockRecord.name =
      firstOccurrences (acceptedNames rows) := by
    rw [processRows_names now rows []]
    rfl
  refine ⟨h1, ?_, ?_, ?_, ?_⟩
  · rw [h1]
    exact firstOccurrences_nodup _
  · have h2 := congrArg List.length h1
    simp only [List.length_map] at h2
    rw [h2, firstOccurrences_length]
  · apply processRows_absorbed
    intro n hn
    rw [h1]
    unfold firstOccurrences
    rw [mem_foldl_addFirst]
    exact Or.inr hn
  · simp [processRows, List.foldl_append]

/-- Claim C5 (counterexample): the claim says a wait timeout after rows were
already accumulated is treated as zero new rows, with the loop proceeding
to further iterations.  On `feedWaitTimeout` the first iteration harvests
`recA`, the second wait times out — and the loop *stops on the spot*
(`waitBreak` during iteration 1), returning just `[recA]`: the fresh row
the feed would have served from iteration 2 onwards is never reached. -/
theorem wait_timeout_after_rows_stops_loop :
    scrape false [] feedWaitTimeout 10 = some (some [recA]) ∧
    loopGo [] feedWaitTimeout initState 0 10 =
      .inr (.waitBreak, ⟨[recA], 1, 0, 0, 1⟩, 1) := by
  exact ⟨by decide, by decide⟩

/-- Claim C5 (amended): a failed wait (lines 126-132) always `break`s the
loop at once.  When it happens on the very first iteration no record was
ever accumulated and the run returns `None` — the claim's `NoRowsFound`
half is honoured; when it happens later the loop likewise stops
immediately in the current state (it does not proceed to further
iterations), and the accumulated records become the run's result. -/
theorem wait_timeout_behavior :
    (∀ (now : PyStr) (feed : Nat → IterFeed) (fuel : Nat),
      (feed 0).scrollErr = false → (feed 0).waitResult = none →
      scrape false now feed (fuel + 1) = some none) ∧
    (∀ (now : PyStr) (feed : Nat → IterFeed) (st : LoopState) (i fuel : Nat),
      st.scrollAttempts < 50 → (feed i).scrollErr = false →
      (feed i).waitResult = none →
      loopGo now feed st i (fuel + 1) = .inr (.waitBreak, st, i)) := by
  constructor
  · intro now feed fuel h1 h2
    unfold scrape
    rw [if_neg (by simp)]
    rw [loopGo_wait_none now feed initState 0 fuel (by decide) h1 h2]
    rfl
  · exact fun now feed st i fuel hcap h1 h2 => loopGo_wait_none now feed st i fuel hcap h1 h2

/-- Witness for `wait_timeout_behavior`: a driver whose first wait times
out makes the whole run fail with no data. -/
theorem wait_timeout_behavior_witness :
    scrape false [] (fun _ => ⟨false, none, 0, false, 0, false, false⟩) 1 = some none :=
  wait_timeout_behavior.1 [] (fun _ => ⟨false, none, 0, false, 0, false, false⟩) 0 rfl rfl

/-- Claim C6 (counterexample): the claim says any external-driver error
during Loading/Scrolling/Waiting discards the partial accumulation — the
run is all-or-nothing.  On `feedWaitError` a driver error in the
*Waiting* step of iteration 1 (after `recB` was accumulated) is caught by
the inner handler at line 130 and merely `break`s: the run returns the
partial dataset `[recB]` as a success. -/
theorem waiting_error_returns_partial_success :
    scrape false [] feedWaitError 10 = some (some [recB]) := by decide

/-- Claim C6 (amended): errors during Loading (`driver.get`, line 103) and
Scrolling (`execute_script`, line 121) do reach the outer handler and the
run returns `None`, discarding any partial accumulation; but an error in
the Waiting step only breaks the loop, and when records were already
accumulated they are returned as an ordinary success — the run is *not*
all-or-nothing. -/
theorem driver_error_behavior :
    (∀ (now : PyStr) (feed : Nat → IterFeed) (fuel : Nat),
      scrape true now feed fuel = some none) ∧
    (∀ (now : PyStr) (feed : Nat → IterFeed) (st : LoopState) (i fuel : Nat),
      st.scrollAttempts < 50 → (feed i).scrollErr = true →
      loopGo now feed st i (fuel + 1) = .inr (.outerErr, st, i)) ∧
    (∀ (now : PyStr) (feed : Nat → IterFeed) (fuel : Nat) (st : LoopState) (i : Nat),
      loopGo now feed initState 0 fuel = .inr (.outerErr, st, i) →
      scrape false now feed fuel = some none) ∧
    (∀ (now : PyStr) (feed : Nat → IterFeed) (fuel : Nat) (st : LoopState) (i : Nat),
      loopGo now feed initState 0 fuel = .inr (.waitBreak, st, i) →
      st.records ≠ [] →
      scrape false now feed fuel = some (some st.records)) := by
  refine ⟨?_, ?_, ?_, ?_⟩
  · intro now feed fuel
    unfold scrape
    rw [if_pos rfl]
  · exact fun now feed st i fuel hcap h => loopGo_scroll_err now feed st i fuel hcap h
  · intro now feed fuel st i h
    unfold scrape
    rw [if_neg (by simp), h]
  · intro now feed fuel st i h hne
    unfold scrape
    rw [if_neg (by simp), h]
    dsimp only
    rw [if_neg hne]

/-- Witness for `driver_error_behavior`: a scroll-script error in the very
first iteration exits through `outerErr` and the run reports `None`. -/
theorem driver_error_behavior_witness :
    loopGo [] (fun _ => ⟨true, none, 0, false, 0, false, false⟩) initState 0 3 =
      .inr (.outerErr, initState, 0) :=
  driver_error_behavior.2.1 [] (fun _ => ⟨true, none, 0, false, 0, false, false⟩)
    initState 0 2 (by decide) rfl

/-- Claim C7 (counterexample): the claim says every price cell whose numeric
parse fails yields `price = 0` with a warning, and hence every record's
price is a non-negative number.  Against the source: an *empty* price
cell skips the conversion entirely (line 164's `if price:`), leaving the
empty *string* — not the number 0 and no warning — even though its parse
fails; and the parse accepts a leading minus sign, so `"-5"` produces the
perfectly negative price −5 with no warning either. -/
theorem price_empty_and_negative :
    parsePrice (pystr "") = (.str [], false) ∧
    pyFloat (removeCommas (pyStrip (pystr ""))) = none ∧
    parsePrice (pystr "-5") = (.num ⟨-5, 0⟩, false) ∧
    Dec.toRat ⟨-5, 0⟩ < 0 := by
  refine ⟨by decide, by decide, by decide, ?_⟩
  norm_num [Dec.toRat]

/-- Claim C7 (amended): for every price cell whose cleaned text (stripped,
commas removed) is *non-empty* and fails the numeric parse — `"N/A"` for
instance — the price becomes the number 0 with the warning flag set, and
extraction still completes: a fresh row with such a price cell is
appended as a record carrying price 0.  (Empty cleaned text instead keeps
the empty string, and successfully parsed prices are carried as-is, sign
included.) -/
theorem unparsable_price_zero (cellText : PyStr)
    (h1 : removeCommas (pyStrip cellText) ≠ [])
    (h2 : pyFloat (removeCommas (pyStrip cellText)) = none) :
    parsePrice cellText = (.num ⟨0, 0⟩, true) ∧
    (∀ (now : PyStr) (acc : List StockRecord) (c0 c2 c3 c4 : PyStr),
      pyStrip c0 ≠ [] → pyStrip c0 ∉ acc.map StockRecord.name →
      extractRow now acc ⟨[c0, cellText, c2, c3, c4], false⟩ =
        acc ++ [buildRecord now c0 cellText c2 c3 c4] ∧
      (buildRecord now c0 cellText c2 c3 c4).price = .num ⟨0, 0⟩) := by
  have hp : parsePrice cellText = (.num ⟨0, 0⟩, true) := by
    unfold parsePrice
    rw [if_pos h1, h2]
  refine ⟨hp, ?_⟩
  intro now acc c0 c2 c3 c4 hname hmem
  constructor
  · unfold extractRow
    simp only [Bool.false_eq_true, if_false]
    rw [if_neg (by push_neg; exact ⟨hname, hmem⟩)]
  · unfold buildRecord
    dsimp only
    rw [hp]

/-- Witness for `unparsable_price_zero` at the spec's own test vector
`"N/A"`. -/
theorem unparsable_price_zero_witness :
    parsePrice (pystr "N/A") = (.num ⟨0, 0⟩, true) :=
  (unparsable_price_zero (pystr "N/A") (by decide) (by decide)).1

/-- Claim C8: `save_to_csv` appends records in the fixed column order of
`renderRecord` (timestamp, name, symbol, price, change_percent, volume,
value — the `headers` list of line 247) and writes the header row only
when the sink did not previously exist; persisting two record sets in
sequence to an initially absent sink therefore yields exactly one header
row followed by both record sets' rows in call order. -/
theorem save_to_csv_header_once (rs1 rs2 rs : List StockRecord)
    (l : List (List Field)) :
    save_to_csv rs2 (save_to_csv rs1 none) =
      some (csvHeaders :: (rs1.map renderRecord ++ rs2.map renderRecord)) ∧
    save_to_csv rs none = some (csvHeaders :: rs.map renderRecord) ∧
    save_to_csv rs (some l) = some (l ++ rs.map renderRecord) := by
  refine ⟨?_, ?_, ?_⟩ <;> simp [save_to_csv]

/-- Claim C10: `save_to_csv` decides the header solely by whether the sink
file can be opened for reading (lines 249-255), never by its content: an
existing but empty sink receives the rows with *no* header line — the
output is exactly the rendered records — so the one-header guarantee of
C8 holds only for an initially absent sink; two saves onto an initially
empty sink yield both row sets and still no header. -/
theorem header_decided_by_existence_only (rs rs1 rs2 : List StockRecord)
    (l : List (List Field)) :
    save_to_csv rs (some []) = some (rs.map renderRecord) ∧
    save_to_csv rs (some l) = some (l ++ rs.map renderRecord) ∧
    save_to_csv rs2 (save_to_csv rs1 (some [])) =
      some (rs1.map renderRecord ++ rs2.map renderRecord) := by
  refine ⟨?_, ?_, ?_⟩ <;> simp [save_to_csv]

set_option maxRecDepth 20000 in
/-- Claim C9 (counterexample): the claim says a failing snapshot capture
never aborts the loop or changes the run's outcome.  Two driver
behaviours identical except for the screenshot: with 50 fresh rows in the
first iteration (so the capture is requested at `50 % 50 == 0`), a
failing capture makes the whole run return `None` — discarding all 50
records — while a succeeding capture lets the run return them. -/
theorem screenshot_failure_changes_outcome :
    scrape false [] feedShotFail 10 = some none ∧
    (scrape false [] feedShotOk 10).map (Option.map List.length) =
      some (some 50) := by
  exact ⟨by decide, by decide⟩

/-- Witness for `screenshot_failure_escalates`: a concrete iteration that
completes normally with a succeeding capture (zero accepted records, so
the count 0 is a multiple of 50 and the capture is requested) aborts with
`outerErr` when the capture fails. -/
theorem screenshot_failure_escalates_witness :
    (runIteration [] initState
      { (⟨false, some [row1col], 3, false, 0, false, false⟩ : IterFeed) with
        shotErr := true }).2 = some LoopExit.outerErr :=
  screenshot_failure_escalates [] initState ⟨[], 3, 0, 1, 0⟩
    ⟨false, some [row1col], 3, false, 0, false, false⟩ (by decide) (by decide)

example : pyFloat (pystr "1234.50") = some ⟨123450, 2⟩ := by decide
example : Dec.toRat ⟨123450, 2⟩ = 1234.5 := by norm_num [Dec.toRat]
example : pyFloat (pystr "N/A") = none := by decide
example : pyFloat (pystr "-5") = some ⟨-5, 0⟩ := by decide
example : pyFloat (pystr "") = none := by decide
example : parsePrice (pystr " 1,234.50 ") = (.num ⟨123450, 2⟩, false) := by decide
example : symbolOf (pystr "AAA\nAAX") = pystr "AAX" := by decide

end DhanScraper
